import Mathlib

/-!
# Verification of the persistent-storage reminder agent

Shallow embedding of `src/5-persistent-storage-agent` (the memory agent's
tool functions in `memory_agent/agent.py`, the session-startup logic in
`main.py`, and the turn loop in `utils.py` / `main.py`), together with
proofs of the spec's testable properties about them.

Session state is a Python dict from string keys to values that are either
strings or lists of strings; we embed it as an insertion-ordered
association list with unique keys (`dictSet` replaces in place, like a
Python dict assignment). Python exceptions raised by the tool bodies
(`ValueError` from `list.remove`, `TypeError` from indexing a list with a
string, `AttributeError` from calling a list method on a non-list) are
embedded as an `Except` error result.
-/

namespace MemoryAgent

/-- A value stored in the session state: the app only ever stores the
string `user_name` and the list-of-strings `reminders`. -/
inductive Value where
  | vstr : String → Value
  | vlist : List String → Value
deriving DecidableEq, Repr

/-- Session state: a Python dict, embedded as an insertion-ordered
association list (keys unique by construction of `dictSet`). -/
abbrev SState := List (String × Value)

/-- `d.get(k)` / `d[k]` lookup on a Python dict. -/
def dictGet (st : SState) (k : String) : Option Value :=
  match st with
  | [] => none
  | (k0, v0) :: rest => if k0 = k then some v0 else dictGet rest k

/-- `d[k] = v` on a Python dict: replace the value in place if the key is
present (preserving insertion order), else append the new key at the end. -/
def dictSet (st : SState) (k : String) (v : Value) : SState :=
  match st with
  | [] => [(k, v)]
  | (k0, v0) :: rest => if k0 = k then (k0, v) :: rest else (k0, v0) :: dictSet rest k v

/-- A Python exception escaping a tool body. -/
inductive PyErr where
  /-- `ValueError`, raised by `list.remove` when the element is absent. -/
  | valueError
  /-- `TypeError`, raised by `reminders[reminder] = ...` when `reminders`
  is a list and `reminder` a string. -/
  | typeError
  /-- `AttributeError`, raised by calling a list method on a value that is
  not a list. -/
  | attributeError
deriving DecidableEq, Repr

/-- Python `repr` of a list of strings, as interpolated by the f-strings
in the tool bodies. -/
def pyListRepr (l : List String) : String :=
  "[" ++ String.intercalate ", " (l.map (fun s => "\x27" ++ s ++ "\x27")) ++ "]"

/-- Python f-string rendering of a state value. -/
def pyShow (v : Value) : String :=
  match v with
  | .vstr s => s
  | .vlist l => pyListRepr l

/-- The structured result dict a tool returns on success (the keys of the
Python dict literals in `memory_agent/agent.py`; keys a given tool does
not set are `none`). -/
structure ToolResult where
  action : String
  reminder : Option String := none
  new_reminder : Option String := none
  reminders : Option Value := none
  user_name : Option String := none
  message : String
deriving DecidableEq, Repr

deriving instance DecidableEq for Except

/-- The complete observable outcome of one tool invocation: the returned
dict (or the Python exception that escaped), the session state after the
call (`tool_context.session.state`, including in-place mutation through
the alias returned by `state.get`), and the `state_delta` the tool
attached to `tool_context.actions`, if any. -/
structure ToolOutcome where
  result : Except PyErr ToolResult
  state : SState
  delta : Option SState
deriving DecidableEq, Repr

/-- `add_reminder` (`memory_agent/agent.py` lines 13-26):
`reminders = state.get("reminders", [])` aliases the stored list when the
key is present, so `reminders.append(reminder)` mutates the session state
in place in that case; the tool then sets
`actions.state_delta = {"reminders": reminders}` and returns its dict.
When the key is absent the default `[]` is a fresh list, so only the
delta carries the append. If the stored value is a string,
`.append` raises `AttributeError`. -/
def add_reminder (reminder : String) (st : SState) : ToolOutcome :=
  match dictGet st "reminders" with
  | some (.vlist l) =>
      let rs := l ++ [reminder]
      { result := .ok { action := "add_reminder", reminder := some reminder,
                        message := "Reminder \x27" ++ reminder ++ "\x27 added successfully" },
        state := dictSet st "reminders" (.vlist rs),
        delta := some [("reminders", .vlist rs)] }
  | none =>
      let rs := [reminder]
      { result := .ok { action := "add_reminder", reminder := some reminder,
                        message := "Reminder \x27" ++ reminder ++ "\x27 added successfully" },
        state := st,
        delta := some [("reminders", .vlist rs)] }
  | some (.vstr _) =>
      { result := .error .attributeError, state := st, delta := none }

/-- `view_reminders` (`memory_agent/agent.py` lines 29-38): reads
`state.get("reminders", [])`, mutates nothing, attaches no delta, and
returns the dict with the current list. -/
def view_reminders (st : SState) : ToolOutcome :=
  let reminders := (dictGet st "reminders").getD (.vlist [])
  { result := .ok { action := "view_reminders", reminders := some reminders,
                    message := "Reminders: " ++ pyShow reminders },
    state := st,
    delta := none }

/-- `delete_reminder` (`memory_agent/agent.py` lines 40-50):
`reminders.remove(reminder)` removes the first occurrence, raising
`ValueError` when the element is absent (before the subsequent
`session.state["reminders"] = reminders` assignment runs, so the state is
then unchanged). No `state_delta` is attached. If the stored value is a
string, `.remove` raises `AttributeError`. -/
def delete_reminder (reminder : String) (st : SState) : ToolOutcome :=
  match dictGet st "reminders" with
  | some (.vstr _) =>
      { result := .error .attributeError, state := st, delta := none }
  | some (.vlist l) =>
      if reminder ∈ l then
        { result := .ok { action := "delete_reminder", reminder := some reminder,
                          message := "Reminder \x27" ++ reminder ++ "\x27 deleted successfully" },
          state := dictSet st "reminders" (.vlist (l.erase reminder)),
          delta := none }
      else
        { result := .error .valueError, state := st, delta := none }
  | none =>
      { result := .error .valueError, state := st, delta := none }

/-- `update_reminder` (`memory_agent/agent.py` lines 52-63): the body
executes `reminders[reminder] = new_reminder` where `reminders` is a list
(or the default `[]`) and `reminder` is a `str`; list indices must be
integers, so this raises `TypeError` unconditionally before the state
assignment, leaving the state unchanged. If the stored value is a string,
item assignment on a `str` is likewise a `TypeError`. -/
def update_reminder (reminder : String) (new_reminder : String) (st : SState) : ToolOutcome :=
  { result := .error .typeError, state := st, delta := none }

/-- `update_user_name` (`memory_agent/agent.py` lines 65-73): assigns
`session.state["user_name"] = user_name` unconditionally and returns its
dict; no delta. -/
def update_user_name (user_name : String) (st : SState) : ToolOutcome :=
  { result := .ok { action := "update_user_name", user_name := some user_name,
                    message := "User name updated to \x27" ++ user_name ++ "\x27 successfully" },
    state := dictSet st "user_name" (.vstr user_name),
    delta := none }

/-- The reminders list a tool body obtains from `state.get("reminders", [])`
(meaningful when the stored value, if present, is a list). -/
def getRems (st : SState) : List String :=
  match dictGet st "reminders" with
  | some (.vlist l) => l
  | _ => []

/-- Well-formedness used by the tool bodies: the `"reminders"` key, when
present, holds a list (true of the initial state and preserved by every
tool). -/
def remindersWF (st : SState) : Bool :=
  match dictGet st "reminders" with
  | some (.vstr _) => false
  | _ => true

/-- The Runner merges a tool's `state_delta` into the session state after
the tool returns (one dict assignment per key of the delta). -/
def mergeDelta (st : SState) (d : SState) : SState :=
  d.foldl (fun s kv => dictSet s kv.1 kv.2) st

/-- Session state visible after a tool call once the Runner has merged
the attached delta (if any). -/
def afterMerge (o : ToolOutcome) : SState :=
  mergeDelta o.state (o.delta.getD [])

/-! ## Session startup (`main.py` lines 26-50) -/

/-- A persisted session row of the durable backend: an id and the
state mapping. -/
structure Session where
  id : String
  state : SState
deriving DecidableEq, Repr

/-- `initial_state` from `main.py` lines 26-29. -/
def initial_state : SState :=
  [("user_name", .vstr "Afzal"), ("reminders", .vlist [])]

/-- Modelled from the spec: `DatabaseSessionService.list_sessions(app, user)`
is not part of this repository; per §4.1 it returns the ordered sequence
of stored sessions for (app, user), and per §4.5 the program reuses "the
most recent if present" via `sessions[0]`, so the listing is ordered
most-recent-first. We represent the durable store for the fixed
(app, user) as that most-recent-first list, which `list_sessions`
returns as is. -/
def list_sessions (store : List Session) : List Session :=
  store

/-- What the startup phase of `main_async` (`main.py` lines 36-50)
produces: the chosen `SESSION_ID`, the store after startup, and whether
`create_session` was called. -/
structure StartupOutcome where
  session_id : String
  store : List Session
  created : Bool
deriving DecidableEq, Repr

/-- Modelled from the spec: `create_session(app, user, state)` is not part
of this repository; per §4.1 it generates a fresh unique identifier
(passed in here as `freshId`) and stores a new session with the given
initial state. The new row is the most recent, hence heads the
most-recent-first store. -/
def create_session (freshId : String) (state : SState) (store : List Session) :
    Session × List Session :=
  let ns : Session := { id := freshId, state := state }
  (ns, ns :: store)

/-- Startup phase of `main_async` (`main.py` lines 36-50): list the
existing sessions for (app, user); if any exist, reuse
`existing_session.sessions[0].id`; else create a session with
`initial_state` and use its id. -/
def main_startup (freshId : String) (store : List Session) : StartupOutcome :=
  let existing := list_sessions store
  match existing with
  | s :: _ => { session_id := s.id, store := store, created := false }
  | [] =>
      let created := create_session freshId initial_state store
      { session_id := created.1.id, store := created.2, created := true }

/-! ## The turn loop (`utils.py` and `main.py` lines 59-67) -/

/-- One event yielded by `runner.run_async`: whether
`event.is_final_response` holds, and `event.content.parts[0].text` when
content with parts is present. -/
structure Event where
  is_final : Bool
  text : Option String
deriving DecidableEq, Repr

/-- The observable behaviour of one `runner.run_async` iteration: the
events it yields, and, if the model call fails, the exception it raises
after yielding them. -/
structure ModelStream where
  events : List Event
  exn : Option String
deriving DecidableEq, Repr

/-- `process_agent_response` (`utils.py` lines 35-40): the final-response
text when the event is final and has content parts, else `None`. -/
def process_agent_response (e : Event) : Option String :=
  if e.is_final then e.text else none

/-- The `try` block of `call_agent_async` (`utils.py` lines 22-32): folds
the yielded events, keeping the last non-`None` processed response in
`final_response`; if the stream raises, the exception escapes the block
(carrying away `final_response`). -/
def run_async_fold (s : ModelStream) : Except String (Option String) :=
  let final_response := s.events.foldl
    (fun acc e => match process_agent_response e with
      | some response => some response
      | none => acc)
    none
  match s.exn with
  | some e => .error e
  | none => .ok final_response

/-- `call_agent_async` (`utils.py` lines 4-32): wraps the `run_async`
iteration in `try/except Exception`; an exception is caught and printed,
and the function falls through. It has no `return` statement, so it
always returns `None` (in particular the turn produces no final
response) and never propagates an exception to its caller. -/
def call_agent_async (s : ModelStream) : Except String (Option String) :=
  match run_async_fold s with
  | .error _e => .ok none
  | .ok _final_response => .ok none

/-- Python `str.lower()`: lowercase the string character by character. -/
def pyLower (s : String) : String :=
  ⟨s.data.map Char.toLower⟩

/-- `user_input.lower() in ["exit", "quit", "bye"]` (`main.py` line 62). -/
def isExitWord (s : String) : Bool :=
  pyLower s == "exit" || pyLower s == "quit" || pyLower s == "bye"

/-- The read-eval loop of `main_async` (`main.py` lines 59-67) over a
finite sequence of input lines, with the model's behaviour on each query
given by `oracle`: each non-exit line is processed by `call_agent_async`;
an exit word breaks the loop. Were a turn to raise, the exception would
abort the loop (and the process); the log records the outcome of every
turn actually processed. -/
def main_loop (oracle : String → ModelStream) : List String → List (Except String (Option String))
  | [] => []
  | line :: rest =>
      if isExitWord line then []
      else
        match call_agent_async (oracle line) with
        | .error e => [.error e]
        | .ok r => .ok r :: main_loop oracle rest

/-! ## Dictionary lemmas -/

theorem dictGet_dictSet_self (st : SState) (k : String) (v : Value) :
    dictGet (dictSet st k v) k = some v := by
  induction st with
  | nil => simp [dictGet, dictSet]
  | cons p rest ih =>
      obtain ⟨k0, v0⟩ := p
      by_cases h : k0 = k <;> simp [dictGet, dictSet, h, ih]

theorem dictGet_dictSet_ne (st : SState) (k k2 : String) (v : Value) (h : k2 ≠ k) :
    dictGet (dictSet st k v) k2 = dictGet st k2 := by
  have hne : ¬ k = k2 := fun hc => h hc.symm
  induction st with
  | nil => simp [dictGet, dictSet, hne]
  | cons p rest ih =>
      obtain ⟨k0, v0⟩ := p
      by_cases hk : k0 = k
      · subst hk
        simp [dictGet, dictSet, hne]
      · simp [dictGet, dictSet, hk, ih]

theorem dictSet_dictSet_self (st : SState) (k : String) (v : Value) :
    dictSet (dictSet st k v) k v = dictSet st k v := by
  induction st with
  | nil => simp [dictSet]
  | cons p rest ih =>
      obtain ⟨k0, v0⟩ := p
      by_cases h : k0 = k <;> simp [dictSet, h, ih]

theorem mergeDelta_single (st : SState) (k : String) (v : Value) :
    mergeDelta st [(k, v)] = dictSet st k v := rfl

theorem getRems_dictSet (st : SState) (rs : List String) :
    getRems (dictSet st "reminders" (.vlist rs)) = rs := by
  simp [getRems, dictGet_dictSet_self]

theorem remindersWF_dictSet (st : SState) (rs : List String) :
    remindersWF (dictSet st "reminders" (.vlist rs)) = true := by
  simp [remindersWF, dictGet_dictSet_self]

/-- On a well-formed state, the session state after `add_reminder`'s delta
has been merged is exactly the original state with the appended list
stored under `"reminders"`. -/
theorem afterMerge_add (st : SState) (x : String) (hwf : remindersWF st = true) :
    afterMerge (add_reminder x st) = dictSet st "reminders" (.vlist (getRems st ++ [x])) := by
  cases h : dictGet st "reminders" with
  | none => simp [add_reminder, afterMerge, getRems, h, mergeDelta]
  | some v =>
      cases v with
      | vstr s => simp [remindersWF, h] at hwf
      | vlist l =>
          simp [add_reminder, afterMerge, getRems, h, mergeDelta, dictSet_dictSet_self]

/-- On a well-formed state, `add_reminder` succeeds and attaches the
whole appended list as its delta. -/
theorem add_reminder_ok (st : SState) (x : String) (hwf : remindersWF st = true) :
    (add_reminder x st).result =
      .ok { action := "add_reminder", reminder := some x,
            message := "Reminder \x27" ++ x ++ "\x27 added successfully" } ∧
    (add_reminder x st).delta = some [("reminders", .vlist (getRems st ++ [x]))] := by
  cases h : dictGet st "reminders" with
  | none => simp [add_reminder, getRems, h]
  | some v =>
      cases v with
      | vstr s => simp [remindersWF, h] at hwf
      | vlist l => simp [add_reminder, getRems, h]

/-- On a well-formed state containing `x`, `delete_reminder x` succeeds
and stores the list with the first occurrence of `x` erased. -/
theorem delete_reminder_present (st : SState) (x : String)
    (hwf : remindersWF st = true) (hmem : x ∈ getRems st) :
    delete_reminder x st =
      { result := .ok { action := "delete_reminder", reminder := some x,
                        message := "Reminder \x27" ++ x ++ "\x27 deleted successfully" },
        state := dictSet st "reminders" (.vlist ((getRems st).erase x)),
        delta := none } := by
  cases h : dictGet st "reminders" with
  | none => simp [getRems, h] at hmem
  | some v =>
      cases v with
      | vstr s => simp [remindersWF, h] at hwf
      | vlist l =>
          simp [getRems, h] at hmem
          simp [delete_reminder, getRems, h, hmem]

/-- `call_agent_async` always returns `None` and never lets an exception
escape (`utils.py`: the whole iteration sits in `try/except Exception`,
and the function body has no `return`). -/
theorem call_agent_async_eq (s : ModelStream) :
    call_agent_async s = .ok none := by
  unfold call_agent_async
  cases run_async_fold s <;> rfl

/-! ## Claims -/

/-- C1 (counterexample): on the initial state, whose reminders list is
empty, `delete_reminder "buy milk"` does NOT return a structured failure
result to the Agent; `list.remove` raises a `ValueError` exception that
escapes the tool body, so the invocation yields no returned result dict
at all, refuting the claim as stated. -/
theorem C1_counterexample :
    (delete_reminder "buy milk" initial_state).result = .error .valueError ∧
    ∀ r : ToolResult, (delete_reminder "buy milk" initial_state).result ≠ .ok r := by
  refine ⟨rfl, fun r hr => ?_⟩
  rw [show (delete_reminder "buy milk" initial_state).result = .error .valueError from rfl] at hr
  exact Except.noConfusion hr

/-- C1 (amended): invoking `delete_reminder x` on a session state whose
reminders list does not contain `x` fails by raising a `ValueError`
exception that propagates out of the tool (it is not returned to the
Agent as a structured failure result), leaves the whole session state —
in particular the reminders list — unchanged, and attaches no delta. -/
theorem C1_delete_absent_raises (st : SState) (x : String)
    (hwf : remindersWF st = true) (hmem : x ∉ getRems st) :
    delete_reminder x st = { result := .error .valueError, state := st, delta := none } := by
  cases h : dictGet st "reminders" with
  | none => simp [delete_reminder, h]
  | some v =>
      cases v with
      | vstr s => simp [remindersWF, h] at hwf
      | vlist l =>
          have hl : x ∉ l := by simpa [getRems, h] using hmem
          simp [delete_reminder, h, hl]

/-- C1 (witness): the amended theorem at the initial state and the
reminder `"buy milk"`. -/
theorem C1_witness :
    remindersWF initial_state = true ∧ "buy milk" ∉ getRems initial_state ∧
    delete_reminder "buy milk" initial_state =
      { result := .error .valueError, state := initial_state, delta := none } :=
  ⟨by decide, by decide, C1_delete_absent_raises initial_state "buy milk" (by decide) (by decide)⟩

/-- C2 (code bug): `update_reminder` never performs a first-match
replacement; on the state whose reminders list is `["buy milk"]`,
`update_reminder "buy milk" "buy bread"` raises `TypeError` (the source
indexes the Python list by the string `reminder`) and leaves the list
unchanged, instead of producing `["buy bread"]`. -/
theorem C2_update_reminder_type_error :
    update_reminder "buy milk" "buy bread"
        [("user_name", .vstr "Afzal"), ("reminders", .vlist ["buy milk"])] =
      { result := .error .typeError,
        state := [("user_name", .vstr "Afzal"), ("reminders", .vlist ["buy milk"])],
        delta := none } := rfl

/-- C9: `view_reminders` returns the current reminders list in its result
dict, and it leaves the entire session state unchanged and attaches no
delta. -/
theorem C9_view_pure (st : SState) (hwf : remindersWF st = true) :
    (view_reminders st).result =
      .ok { action := "view_reminders", reminders := some (.vlist (getRems st)),
            message := "Reminders: " ++ pyListRepr (getRems st) } ∧
    (view_reminders st).state = st ∧ (view_reminders st).delta = none := by
  cases h : dictGet st "reminders" with
  | none => simp [view_reminders, getRems, h, pyShow]
  | some v =>
      cases v with
      | vstr s => simp [remindersWF, h] at hwf
      | vlist l => simp [view_reminders, getRems, h, pyShow]

/-- C9 (witness): `view_reminders` on the initial state. -/
theorem C9_witness :
    remindersWF initial_state = true ∧
    (view_reminders initial_state).state = initial_state ∧
    (view_reminders initial_state).delta = none :=
  ⟨by decide, (C9_view_pure initial_state (by decide)).2⟩

/-- C10: when the `"reminders"` key is absent from the session state, the
tools treat the list as empty: `view_reminders` returns `[]`, and
`add_reminder x` succeeds and (after the Runner merges its delta) leaves
the one-element list `[x]`. -/
theorem C10_missing_key_defaults (st : SState) (x : String)
    (habs : dictGet st "reminders" = none) :
    (view_reminders st).result =
      .ok { action := "view_reminders", reminders := some (.vlist []),
            message := "Reminders: []" } ∧
    (add_reminder x st).result =
      .ok { action := "add_reminder", reminder := some x,
            message := "Reminder \x27" ++ x ++ "\x27 added successfully" } ∧
    getRems (afterMerge (add_reminder x st)) = [x] := by
  refine ⟨?_, ?_, ?_⟩
  · simp [view_reminders, habs, pyShow, pyListRepr]
    rfl
  · simp [add_reminder, habs]
  · simp [add_reminder, habs, afterMerge, mergeDelta, getRems_dictSet]

/-- C10 (witness): the state holding only the user name, with no
`"reminders"` key, and the reminder `"buy milk"`. -/
theorem C10_witness :
    dictGet [("user_name", Value.vstr "Afzal")] "reminders" = none ∧
    getRems (afterMerge (add_reminder "buy milk" [("user_name", Value.vstr "Afzal")])) =
      ["buy milk"] :=
  ⟨by decide,
   (C10_missing_key_defaults [("user_name", Value.vstr "Afzal")] "buy milk" (by decide)).2.2⟩

/-- C3: after `add_reminder x` (with its delta merged by the Runner),
`delete_reminder x` succeeds, and the stored list is the post-add list
with exactly its first occurrence of `x` removed and all other entries
unchanged in order: the post-add list splits as `l₁ ++ x :: l₂` with
`x ∉ l₁` and the post-delete list is `l₁ ++ l₂`. -/
theorem C3_add_then_delete (st : SState) (x : String) (hwf : remindersWF st = true) :
    (delete_reminder x (afterMerge (add_reminder x st))).result =
      .ok { action := "delete_reminder", reminder := some x,
            message := "Reminder \x27" ++ x ++ "\x27 deleted successfully" } ∧
    getRems (delete_reminder x (afterMerge (add_reminder x st))).state =
      (getRems st ++ [x]).erase x ∧
    ∃ l₁ l₂, getRems st ++ [x] = l₁ ++ x :: l₂ ∧ x ∉ l₁ ∧
      getRems (delete_reminder x (afterMerge (add_reminder x st))).state = l₁ ++ l₂ := by
  have h1 : afterMerge (add_reminder x st) =
      dictSet st "reminders" (.vlist (getRems st ++ [x])) := afterMerge_add st x hwf
  have hwf1 : remindersWF (afterMerge (add_reminder x st)) = true := by
    rw [h1]; exact remindersWF_dictSet st (getRems st ++ [x])
  have hg1 : getRems (afterMerge (add_reminder x st)) = getRems st ++ [x] := by
    rw [h1]; exact getRems_dictSet st (getRems st ++ [x])
  have hmem : x ∈ getRems (afterMerge (add_reminder x st)) := by simp [hg1]
  have hd := delete_reminder_present (afterMerge (add_reminder x st)) x hwf1 hmem
  have hmem2 : x ∈ getRems st ++ [x] := by simp
  obtain ⟨l₁, l₂, hnot, hsplit, herase⟩ := List.exists_erase_eq hmem2
  refine ⟨by rw [hd], ?_, l₁, l₂, hsplit, hnot, ?_⟩
  · rw [hd]
    simp [getRems_dictSet, hg1]
  · rw [hd]
    simp [getRems_dictSet, hg1, herase]

/-- C3 (witness): add then delete of `"buy milk"` starting from the
initial state. -/
theorem C3_witness :
    remindersWF initial_state = true ∧
    getRems (delete_reminder "buy milk"
        (afterMerge (add_reminder "buy milk" initial_state))).state =
      (getRems initial_state ++ ["buy milk"]).erase "buy milk" :=
  ⟨by decide, (C3_add_then_delete initial_state "buy milk" (by decide)).2.1⟩

/-- C4: `add_reminder item` always succeeds and, once its delta is
merged, the reminders list is the old list with `item` appended at the
end; concretely, from the initial state `{user_name: Afzal, reminders: []}`,
`add_reminder "buy milk"` followed by `view_reminders` reports the list
`["buy milk"]`. -/
theorem C4_add_appends :
    (∀ (st : SState) (x : String), remindersWF st = true →
      (add_reminder x st).result =
        .ok { action := "add_reminder", reminder := some x,
              message := "Reminder \x27" ++ x ++ "\x27 added successfully" } ∧
      getRems (afterMerge (add_reminder x st)) = getRems st ++ [x]) ∧
    (view_reminders (afterMerge (add_reminder "buy milk" initial_state))).result =
      .ok { action := "view_reminders", reminders := some (.vlist ["buy milk"]),
            message := "Reminders: [\x27buy milk\x27]" } := by
  constructor
  · intro st x hwf
    refine ⟨(add_reminder_ok st x hwf).1, ?_⟩
    rw [afterMerge_add st x hwf]
    exact getRems_dictSet st (getRems st ++ [x])
  · rfl

/-- C4 (witness): the universally quantified part of C4 instantiated at
the initial state and `"buy milk"`. -/
theorem C4_witness :
    remindersWF initial_state = true ∧
    getRems (afterMerge (add_reminder "buy milk" initial_state)) =
      getRems initial_state ++ ["buy milk"] :=
  ⟨by decide, (C4_add_appends.1 initial_state "buy milk" (by decide)).2⟩

/-- C5: on startup, when the durable store holds sessions for (app, user)
the program reuses the id of the most recent one (the head of the
most-recent-first listing), changes the store in no way (creates no new
session, so the reused session still holds its last-committed state);
when the store is empty it creates exactly one session whose state is
`initial_state` and uses its fresh id. -/
theorem C5_startup (freshId : String) (store : List Session) :
    (∀ (s : Session) (rest : List Session), store = s :: rest →
      main_startup freshId store =
        { session_id := s.id, store := store, created := false }) ∧
    (store = [] →
      main_startup freshId store =
        { session_id := freshId,
          store := [{ id := freshId, state := initial_state }],
          created := true }) := by
  constructor
  · intro s rest h
    subst h
    rfl
  · intro h
    subst h
    rfl

/-- C5 (witness): both branches of C5 at concrete stores. -/
theorem C5_witness :
    main_startup "fresh-id" [{ id := "sess-1", state := initial_state }] =
      { session_id := "sess-1",
        store := [{ id := "sess-1", state := initial_state }],
        created := false } ∧
    main_startup "fresh-id" [] =
      { session_id := "fresh-id",
        store := [{ id := "fresh-id", state := initial_state }],
        created := true } :=
  ⟨(C5_startup "fresh-id" [{ id := "sess-1", state := initial_state }]).1
      { id := "sess-1", state := initial_state } [] rfl,
   (C5_startup "fresh-id" []).2 rfl⟩

/-- C6: when the `runner.run_async` iteration raises, `call_agent_async`
catches the exception inside its `try/except` and returns normally with
no final response (`.ok none`), and the read-eval loop goes on to process
the remaining input lines exactly as if the turn had succeeded. -/
theorem C6_model_error_caught (oracle : String → ModelStream) (line : String)
    (rest : List String) (ex : String)
    (hexn : (oracle line).exn = some ex) (hexit : isExitWord line = false) :
    call_agent_async (oracle line) = .ok none ∧
    main_loop oracle (line :: rest) = .ok none :: main_loop oracle rest := by
  have h := call_agent_async_eq (oracle line)
  refine ⟨h, ?_⟩
  simp [main_loop, hexit, h]

/-- C6 (witness): an oracle whose model call always raises `"boom"`, on
the input lines `["hello", "bye"]`. -/
theorem C6_witness :
    call_agent_async ((fun _ : String =>
        ({ events := [], exn := some "boom" } : ModelStream)) "hello") = .ok none ∧
    main_loop (fun _ : String => ({ events := [], exn := some "boom" } : ModelStream))
        ["hello", "bye"] =
      .ok none ::
        main_loop (fun _ : String => ({ events := [], exn := some "boom" } : ModelStream))
          ["bye"] :=
  C6_model_error_caught
    (fun _ : String => ({ events := [], exn := some "boom" } : ModelStream))
    "hello" ["bye"] "boom" rfl (by decide)

/-- C7: the delta `{reminders: old ++ [x]}` attached by `add_reminder` is
a whole-list assignment, so the Runner merging it twice into the same
session state gives exactly the state of merging it once — the appended
item is not duplicated — and the merged list is the old list with `x`
appended. -/
theorem C7_delta_merge_idempotent (st : SState) (x : String) (d : SState)
    (hwf : remindersWF st = true) (hd : (add_reminder x st).delta = some d) :
    mergeDelta (mergeDelta st d) d = mergeDelta st d ∧
    getRems (mergeDelta st d) = getRems st ++ [x] := by
  cases h : dictGet st "reminders" with
  | none =>
      simp [add_reminder, h] at hd
      subst hd
      refine ⟨?_, ?_⟩
      · rw [mergeDelta_single, mergeDelta_single]
        exact dictSet_dictSet_self st "reminders" (.vlist [x])
      · rw [mergeDelta_single, getRems_dictSet]
        simp [getRems, h]
  | some v =>
      cases v with
      | vstr s => simp [remindersWF, h] at hwf
      | vlist l =>
          simp [add_reminder, h] at hd
          subst hd
          refine ⟨?_, ?_⟩
          · rw [mergeDelta_single, mergeDelta_single]
            exact dictSet_dictSet_self st "reminders" (.vlist (l ++ [x]))
          · rw [mergeDelta_single, getRems_dictSet]
            simp [getRems, h]

/-- C7 (witness): the delta of `add_reminder "buy milk"` on the initial
state, merged twice. -/
theorem C7_witness :
    remindersWF initial_state = true ∧
    (add_reminder "buy milk" initial_state).delta =
      some [("reminders", Value.vlist ["buy milk"])] ∧
    mergeDelta (mergeDelta initial_state [("reminders", Value.vlist ["buy milk"])])
        [("reminders", Value.vlist ["buy milk"])] =
      mergeDelta initial_state [("reminders", Value.vlist ["buy milk"])] :=
  ⟨by decide, by decide,
   (C7_delta_merge_idempotent initial_state "buy milk"
      [("reminders", Value.vlist ["buy milk"])] (by decide) (by decide)).1⟩

/-- C8: `update_user_name name` always succeeds, stores `name` under the
`"user_name"` key unconditionally (whatever was there before, if
anything), and changes no other state key — in particular the reminders
list is untouched — and attaches no delta. -/
theorem C8_update_user_name (st : SState) (name : String) :
    (update_user_name name st).result =
      .ok { action := "update_user_name", user_name := some name,
            message := "User name updated to \x27" ++ name ++ "\x27 successfully" } ∧
    dictGet (update_user_name name st).state "user_name" = some (.vstr name) ∧
    (∀ k, k ≠ "user_name" → dictGet (update_user_name name st).state k = dictGet st k) ∧
    getRems (update_user_name name st).state = getRems st ∧
    (update_user_name name st).delta = none := by
  refine ⟨rfl, ?_, ?_, ?_, rfl⟩
  · simp [update_user_name, dictGet_dictSet_self]
  · intro k hk
    simp [update_user_name, dictGet_dictSet_ne st "user_name" k _ hk]
  · have h := dictGet_dictSet_ne st "user_name" "reminders" (.vstr name) (by decide)
    simp [update_user_name, getRems, h]

/-- C8 (witness): renaming the user to `"Bob"` on the initial state sets
`user_name` and leaves the `"reminders"` key as it was. -/
theorem C8_witness :
    dictGet (update_user_name "Bob" initial_state).state "user_name" =
      some (Value.vstr "Bob") ∧
    dictGet (update_user_name "Bob" initial_state).state "reminders" =
      dictGet initial_state "reminders" :=
  ⟨(C8_update_user_name initial_state "Bob").2.1,
   (C8_update_user_name initial_state "Bob").2.2.1 "reminders" (by decide)⟩

end MemoryAgent
